import Mathlib

/-!
Shallow embedding of rPBR (src/pbrcore.h) for verifying the natural-language
specification against the code.

Modelling conventions:
* C `float` values that the claims reason about are embedded as `ℚ`; every
  arithmetic expression that appears is exact in binary floating point for the
  ranges involved (divisions by 255 are stated symbolically, the prefilter
  sizes are products with powers of two, the roughness sequence is quarters).
* C `unsigned char` colour channels are `ℕ` (with `% 256` narrowing where an
  `int` is stored into a channel, as in `SetupMaterialPBR`).
* GPU side effects (gl* calls, shader uniform uploads) are embedded as
  explicit event lists in source order, or as explicit state passing where a
  claim is about the resulting state (texture-unit bindings, uniform stores).
* `GetShaderLocation` is an oracle `locOf : String → Int` supplied by the
  caller of the embedded function; the source's location lookups keep the
  exact uniform-name strings.
-/

set_option maxRecDepth 100000

namespace RPBR

/-! ## Base data types (raylib types used by pbrcore.h) -/

structure Vector3 where
  x : ℚ
  y : ℚ
  z : ℚ
deriving Repr, DecidableEq

structure Color where
  r : ℕ
  g : ℕ
  b : ℕ
  a : ℕ
deriving Repr, DecidableEq

structure Texture2D where
  id : ℕ
deriving Repr, DecidableEq

structure Shader where
  id : ℕ
deriving Repr, DecidableEq

def zeroVector3 : Vector3 := ⟨0, 0, 0⟩

def zeroColor : Color := ⟨0, 0, 0, 0⟩

def zeroTexture : Texture2D := ⟨0⟩

/-! ## pbrcore.h data model -/

def MAX_LIGHTS : ℕ := 4

def MAX_MIPMAP_LEVELS : ℕ := 5

structure Environment where
  pbrShader : Shader
  skyShader : Shader
  cubemapId : ℕ
  irradianceId : ℕ
  prefilterId : ℕ
  brdfId : ℕ
  pbrViewLoc : Int
  skyViewLoc : Int
  skyResolutionLoc : Int
deriving Repr, DecidableEq

structure PropertyPBR where
  bitmap : Texture2D
  useBitmap : Bool
  color : Color
deriving Repr, DecidableEq

structure MaterialPBR where
  albedo : PropertyPBR
  normals : PropertyPBR
  metalness : PropertyPBR
  roughness : PropertyPBR
  ao : PropertyPBR
  emission : PropertyPBR
  height : PropertyPBR
  env : Environment
deriving Repr, DecidableEq

inductive TypePBR
  | PBR_ALBEDO
  | PBR_NORMALS
  | PBR_METALNESS
  | PBR_ROUGHNESS
  | PBR_AO
  | PBR_EMISSION
  | PBR_HEIGHT
deriving Repr, DecidableEq

/-- Field selector for the seven material property slots (projection helper,
used only to state theorems about one slot versus the others). -/
def propOf (mat : MaterialPBR) : TypePBR → PropertyPBR
  | .PBR_ALBEDO => mat.albedo
  | .PBR_NORMALS => mat.normals
  | .PBR_METALNESS => mat.metalness
  | .PBR_ROUGHNESS => mat.roughness
  | .PBR_AO => mat.ao
  | .PBR_EMISSION => mat.emission
  | .PBR_HEIGHT => mat.height

structure Light where
  enabled : Bool
  type : Int
  position : Vector3
  target : Vector3
  color : Color
  enabledLoc : Int
  typeLoc : Int
  posLoc : Int
  targetLoc : Int
  colorLoc : Int
deriving Repr, DecidableEq

/-- `Light light = { 0 };` of pbrcore.h line 329. -/
def zeroLight : Light :=
  { enabled := false, type := 0, position := zeroVector3, target := zeroVector3,
    color := zeroColor, enabledLoc := 0, typeLoc := 0, posLoc := 0,
    targetLoc := 0, colorLoc := 0 }

/-! ## Shader uniform store

A shader program's uniform state is a map from uniform location to the last
value written there (`SetShaderValue` / `SetShaderValuei` of raylib overwrite
the value at a location). -/

inductive UniformVal
  | ints (vals : List Int)
  | floats (vals : List ℚ)
deriving Repr, DecidableEq

abbrev UniformState : Type := Int → Option UniformVal

def setUniform (s : UniformState) (loc : Int) (v : UniformVal) : UniformState :=
  fun l => if l = loc then some v else s l

def emptyUniforms : UniformState := fun _ => none

def b2i (b : Bool) : Int := if b then 1 else 0

/-- The colour normalisation of pbrcore.h line 620:
`{ r/255, g/255, b/255, a/255 }` as floats. -/
def colorNormalize (c : Color) : List ℚ :=
  [(c.r : ℚ) / 255, (c.g : ℚ) / 255, (c.b : ℚ) / 255, (c.a : ℚ) / 255]

/-- `UpdateLightValues` (pbrcore.h lines 605-622): uploads enabled flag, type,
position, target and normalised colour to the light's cached locations on the
environment's PBR shader.  The `env` argument of the C function only selects
the PBR shader whose uniform store `s` is being updated. -/
def UpdateLightValues (light : Light) (s : UniformState) : UniformState :=
  let s1 := setUniform s light.enabledLoc (.ints [b2i light.enabled])
  let s2 := setUniform s1 light.typeLoc (.ints [light.type])
  let s3 := setUniform s2 light.posLoc
    (.floats [light.position.x, light.position.y, light.position.z])
  let s4 := setUniform s3 light.targetLoc
    (.floats [light.target.x, light.target.y, light.target.z])
  setUniform s4 light.colorLoc (.floats (colorNormalize light.color))

/-! ## CreateLight (pbrcore.h lines 327-361) -/

/-- In-place character patch, embedding `name[7] = '0' + lightsCount`
(pbrcore.h lines 344-348). -/
def setCharAt (s : String) (i : ℕ) (c : Char) : String := ⟨s.data.set i c⟩

def lightIndexDigit (i : ℕ) : Char := Char.ofNat ('0'.toNat + i)

/-- Builds one indexed light uniform name from its template, patching
index 7 with the digit of the current light counter. -/
def lightUniformName (template : String) (i : ℕ) : String :=
  setCharAt template 7 (lightIndexDigit i)

/-- The five uniform names queried by `CreateLight` for slot `i`, in source
order (pbrcore.h lines 339-348). -/
def createLightNames (i : ℕ) : List String :=
  [ lightUniformName "lights[x].enabled" i,
    lightUniformName "lights[x].type" i,
    lightUniformName "lights[x].position" i,
    lightUniformName "lights[x].target" i,
    lightUniformName "lights[x].color" i ]

structure CreateLightOut where
  light : Light
  lightsCount : ℕ
  shader : UniformState
  queriedNames : List String

/-- `CreateLight` (pbrcore.h lines 327-361).  The global `lightsCount` and the
PBR shader's uniform store are passed and returned explicitly; `locOf` is the
`GetShaderLocation` oracle of the environment's PBR shader. -/
def CreateLight (type : Int) (pos targ : Vector3) (color : Color)
    (locOf : String → Int) (lightsCount : ℕ) (shader : UniformState) :
    CreateLightOut :=
  if lightsCount < MAX_LIGHTS then
    let light : Light :=
      { enabled := true, type := type, position := pos, target := targ,
        color := color,
        enabledLoc := locOf (lightUniformName "lights[x].enabled" lightsCount),
        typeLoc := locOf (lightUniformName "lights[x].type" lightsCount),
        posLoc := locOf (lightUniformName "lights[x].position" lightsCount),
        targetLoc := locOf (lightUniformName "lights[x].target" lightsCount),
        colorLoc := locOf (lightUniformName "lights[x].color" lightsCount) }
    { light := light, lightsCount := lightsCount + 1,
      shader := UpdateLightValues light shader,
      queriedNames := createLightNames lightsCount }
  else
    { light := zeroLight, lightsCount := lightsCount, shader := shader,
      queriedNames := [] }

/-- `GetLightsCount` (pbrcore.h lines 599-602): returns the global counter. -/
def GetLightsCount (lightsCount : ℕ) : ℕ := lightsCount

/-- `UnloadEnvironment` (pbrcore.h lines 937-948): unloads the two shaders and
deletes the four environment textures.  Its body never references the global
`lightsCount`.  The result lists the GPU texture ids deleted. -/
def UnloadEnvironment (env : Environment) : List ℕ :=
  [env.cubemapId, env.irradianceId, env.prefilterId, env.brdfId]

/-! ## Process-lifetime model of the global light counter

The global `static int lightsCount` (pbrcore.h line 137) is referenced only by
`CreateLight` and `GetLightsCount`; every other operation of the library
leaves it untouched.  A process run is a sequence of library operations
applied to the explicit process state. -/

inductive ProcOp
  | createLight (type : Int) (pos targ : Vector3) (color : Color)
      (locOf : String → Int)
  | getLightsCount
  | unloadEnvironment (env : Environment)
  | updateLightValues (light : Light)
  | loadEnvironment (filename : String)
      (cubemapSize irradianceSize prefilterSize brdfSize : ℕ)
  | setupMaterial (env : Environment) (albedo : Color) (metalness roughness : ℕ)
  | setMaterialTexture (mat : MaterialPBR) (type : TypePBR) (texture : Texture2D)
  | unsetMaterialTexture (mat : MaterialPBR) (type : TypePBR)
  | drawModelPBR (mat : MaterialPBR) (position rotationAxis : Vector3)
      (rotationAngle : ℚ) (scale : Vector3)

structure ProcState where
  lightsCount : ℕ
  pbrShader : UniformState

/-- Effect of each library operation on the process state holding the global
`lightsCount`.  Only `CreateLight` takes the counter as an input and returns
a new value; every other function of pbrcore.h — as embedded above — never
mentions it, so its step leaves the counter unchanged by construction. -/
def stepOp (s : ProcState) : ProcOp → ProcState
  | .createLight type pos targ color locOf =>
      let out := CreateLight type pos targ color locOf s.lightsCount s.pbrShader
      { lightsCount := out.lightsCount, pbrShader := out.shader }
  | .getLightsCount => s
  | .unloadEnvironment _ => s
  | .updateLightValues light =>
      { s with pbrShader := UpdateLightValues light s.pbrShader }
  | .loadEnvironment _ _ _ _ _ => s
  | .setupMaterial _ _ _ _ => s
  | .setMaterialTexture _ _ _ => s
  | .unsetMaterialTexture _ _ => s
  | .drawModelPBR _ _ _ _ _ => s

def runOps (s : ProcState) (ops : List ProcOp) : ProcState := ops.foldl stepOp s

/-! ## SetMaterialTexturePBR / UnsetMaterialTexturePBR (pbrcore.h 211-324)

Each returns the updated material together with the list of GPU texture ids
released (`UnloadTexture` calls issued). -/

def SetMaterialTexturePBR (mat : MaterialPBR) (type : TypePBR)
    (texture : Texture2D) : MaterialPBR × List ℕ :=
  match type with
  | .PBR_ALBEDO =>
      ({ mat with albedo := { mat.albedo with bitmap := texture, useBitmap := true } }, [])
  | .PBR_NORMALS =>
      ({ mat with normals := { mat.normals with bitmap := texture, useBitmap := true } }, [])
  | .PBR_METALNESS =>
      ({ mat with metalness := { mat.metalness with bitmap := texture, useBitmap := true } }, [])
  | .PBR_ROUGHNESS =>
      ({ mat with roughness := { mat.roughness with bitmap := texture, useBitmap := true } }, [])
  | .PBR_AO =>
      ({ mat with ao := { mat.ao with bitmap := texture, useBitmap := true } }, [])
  | .PBR_EMISSION =>
      ({ mat with emission := { mat.emission with bitmap := texture, useBitmap := true } }, [])
  | .PBR_HEIGHT =>
      ({ mat with height := { mat.height with bitmap := texture, useBitmap := true } }, [])

/-- One property slot of `UnsetMaterialTexturePBR`: if a bitmap is in use,
clear the flag, unload the texture from the GPU and zero the bitmap field
(colour untouched), as in pbrcore.h lines 259-267 and the six analogues. -/
def unsetProperty (p : PropertyPBR) : PropertyPBR × List ℕ :=
  if p.useBitmap then
    ({ p with useBitmap := false, bitmap := zeroTexture }, [p.bitmap.id])
  else (p, [])

def UnsetMaterialTexturePBR (mat : MaterialPBR) (type : TypePBR) :
    MaterialPBR × List ℕ :=
  match type with
  | .PBR_ALBEDO =>
      let r := unsetProperty mat.albedo
      ({ mat with albedo := r.1 }, r.2)
  | .PBR_NORMALS =>
      let r := unsetProperty mat.normals
      ({ mat with normals := r.1 }, r.2)
  | .PBR_METALNESS =>
      let r := unsetProperty mat.metalness
      ({ mat with metalness := r.1 }, r.2)
  | .PBR_ROUGHNESS =>
      let r := unsetProperty mat.roughness
      ({ mat with roughness := r.1 }, r.2)
  | .PBR_AO =>
      let r := unsetProperty mat.ao
      ({ mat with ao := r.1 }, r.2)
  | .PBR_EMISSION =>
      let r := unsetProperty mat.emission
      ({ mat with emission := r.1 }, r.2)
  | .PBR_HEIGHT =>
      let r := unsetProperty mat.height
      ({ mat with height := r.1 }, r.2)

/-! ## DrawModelPBR (pbrcore.h lines 637-791) as an event trace

`DrawModelPBR` is embedded as the ordered list of GPU calls it issues.
Uniform uploads are recorded by uniform name (the source looks each name up
with `GetShaderLocation` and writes to the returned location); the model
matrix upload records the raw transform arguments (its numeric value is the
composition `MatrixMultiply(MatrixMultiply(matScale, matRotation),
matTranslation)` of pbrcore.h line 671, which no claim inspects). -/

inductive DrawEvent
  | useProgram (id : ℕ)
  | uploadF (name : String) (vals : List ℚ)
  | uploadI (name : String) (vals : List Int)
  | uploadMMatrix (position rotationAxis : Vector3) (rotationAngle : ℚ)
      (scale : Vector3)
  | activeTexture (unit : ℕ)
  | bindTexture2D (id : ℕ)
  | bindTextureCubemap (id : ℕ)
  | drawCall
deriving Repr, DecidableEq

/-- `{ r/255, g/255, b/255 }` as uploaded for six of the seven property
colours (pbrcore.h lines 643-656). -/
def colorRGB (c : Color) : List ℚ :=
  [(c.r : ℚ) / 255, (c.g : ℚ) / 255, (c.b : ℚ) / 255]

/-- `{ 1.0f - r/255, 1.0f - g/255, 1.0f - b/255 }` as uploaded for the
roughness colour only (pbrcore.h line 649). -/
def colorRGBInv (c : Color) : List ℚ :=
  [1 - (c.r : ℚ) / 255, 1 - (c.g : ℚ) / 255, 1 - (c.b : ℚ) / 255]

/-- A conditional `glActiveTexture(unit); glBindTexture(GL_TEXTURE_2D, id)`
pair, issued only when the guard is true. -/
def bindIf (use : Bool) (unit : ℕ) (id : ℕ) : List DrawEvent :=
  if use then [.activeTexture unit, .bindTexture2D id] else []

/-- Everything `DrawModelPBR` issues before its internal `DrawModelEx` call
(pbrcore.h lines 640-733), in source order. -/
def drawSetupEvents (mat : MaterialPBR) (position rotationAxis : Vector3)
    (rotationAngle : ℚ) (scale : Vector3) : List DrawEvent :=
  [ .useProgram mat.env.pbrShader.id,
    .uploadF "albedo.color" (colorRGB mat.albedo.color),
    .uploadF "normals.color" (colorRGB mat.normals.color),
    .uploadF "metalness.color" (colorRGB mat.metalness.color),
    .uploadF "roughness.color" (colorRGBInv mat.roughness.color),
    .uploadF "ao.color" (colorRGB mat.ao.color),
    .uploadF "emission.color" (colorRGB mat.emission.color),
    .uploadF "height.color" (colorRGB mat.height.color),
    .uploadI "albedo.useSampler" [b2i mat.albedo.useBitmap],
    .uploadI "normals.useSampler" [b2i mat.normals.useBitmap],
    .uploadI "metalness.useSampler" [b2i mat.metalness.useBitmap],
    .uploadI "roughness.useSampler" [b2i mat.roughness.useBitmap],
    .uploadI "ao.useSampler" [b2i mat.ao.useBitmap],
    .uploadI "emission.useSampler" [b2i mat.emission.useBitmap],
    .uploadI "height.useSampler" [b2i mat.height.useBitmap],
    .uploadMMatrix position rotationAxis rotationAngle scale,
    .activeTexture 0, .bindTextureCubemap mat.env.irradianceId,
    .activeTexture 1, .bindTextureCubemap mat.env.prefilterId,
    .activeTexture 2, .bindTexture2D mat.env.brdfId ]
  ++ bindIf mat.albedo.useBitmap 3 mat.albedo.bitmap.id
  ++ bindIf mat.normals.useBitmap 4 mat.normals.bitmap.id
  ++ bindIf mat.metalness.useBitmap 5 mat.metalness.bitmap.id
  ++ bindIf mat.roughness.useBitmap 6 mat.roughness.bitmap.id
  ++ bindIf mat.ao.useBitmap 7 mat.ao.bitmap.id
  ++ bindIf mat.emission.useBitmap 8 mat.emission.bitmap.id
  ++ bindIf mat.height.useBitmap 9 mat.height.bitmap.id

/-- Everything `DrawModelPBR` issues after its internal `DrawModelEx` call
(pbrcore.h lines 738-791), in source order.  Note the source's last unbind
block (lines 785-790) is guarded on `mat.height.useBitmap` but activates
texture unit 8, and there is no unbind block for unit 9. -/
def drawUnbindEvents (mat : MaterialPBR) : List DrawEvent :=
  [ .activeTexture 0, .bindTextureCubemap 0,
    .activeTexture 1, .bindTextureCubemap 0,
    .activeTexture 2, .bindTexture2D 0 ]
  ++ bindIf mat.albedo.useBitmap 3 0
  ++ bindIf mat.normals.useBitmap 4 0
  ++ bindIf mat.metalness.useBitmap 5 0
  ++ bindIf mat.roughness.useBitmap 6 0
  ++ bindIf mat.ao.useBitmap 7 0
  ++ bindIf mat.height.useBitmap 8 0

/-- `DrawModelPBR` as its full ordered GPU call trace. -/
def DrawModelPBR (mat : MaterialPBR) (position rotationAxis : Vector3)
    (rotationAngle : ℚ) (scale : Vector3) : List DrawEvent :=
  drawSetupEvents mat position rotationAxis rotationAngle scale
    ++ [.drawCall] ++ drawUnbindEvents mat

/-! ### OpenGL texture-unit binding state

Each texture unit holds one binding per target (`GL_TEXTURE_2D` and
`GL_TEXTURE_CUBE_MAP` bindings are separate state in OpenGL);
`glBindTexture` affects the currently active unit. -/

structure GlTexState where
  activeUnit : ℕ
  bound2D : ℕ → ℕ
  boundCube : ℕ → ℕ

def applyDrawEvent (s : GlTexState) : DrawEvent → GlTexState
  | .activeTexture u => { s with activeUnit := u }
  | .bindTexture2D id =>
      { s with bound2D := fun u => if u = s.activeUnit then id else s.bound2D u }
  | .bindTextureCubemap id =>
      { s with boundCube := fun u => if u = s.activeUnit then id else s.boundCube u }
  | _ => s

def applyDrawEvents (s : GlTexState) (evts : List DrawEvent) : GlTexState :=
  evts.foldl applyDrawEvent s

/-- First float-vector uniform upload with the given name in a trace. -/
def uploadOfF (evts : List DrawEvent) (name : String) : Option (List ℚ) :=
  evts.findSome? fun e =>
    match e with
    | .uploadF n vals => if n = name then some vals else none
    | _ => none

/-! ## SetupMaterialPBR (pbrcore.h lines 164-208)

Returns the initialised material together with the sampler texture-unit
uploads issued on the environment's PBR shader.  The C `int` parameters are
narrowed into `unsigned char` colour channels, hence `% 256`. -/

def SetupMaterialPBR (env : Environment) (albedo : Color)
    (metalness roughness : ℕ) : MaterialPBR × List DrawEvent :=
  let mat : MaterialPBR :=
    { albedo := { bitmap := zeroTexture, useBitmap := false, color := albedo },
      normals := { bitmap := zeroTexture, useBitmap := false,
                   color := ⟨128, 128, 255, 255⟩ },
      metalness := { bitmap := zeroTexture, useBitmap := false,
                     color := ⟨metalness % 256, 0, 0, 0⟩ },
      roughness := { bitmap := zeroTexture, useBitmap := false,
                     color := ⟨roughness % 256, 0, 0, 0⟩ },
      ao := { bitmap := zeroTexture, useBitmap := false,
              color := ⟨255, 255, 255, 255⟩ },
      emission := { bitmap := zeroTexture, useBitmap := false,
                    color := ⟨0, 0, 0, 0⟩ },
      height := { bitmap := zeroTexture, useBitmap := false,
                  color := ⟨0, 0, 0, 0⟩ },
      env := env }
  (mat,
    [ .uploadI "albedo.sampler" [3],
      .uploadI "normals.sampler" [4],
      .uploadI "metalness.sampler" [5],
      .uploadI "roughness.sampler" [6],
      .uploadI "ao.sampler" [7],
      .uploadI "emission.sampler" [8],
      .uploadI "height.sampler" [9] ])

/-! ## LoadEnvironment (pbrcore.h lines 364-596) as an event trace

GPU object handles are abstract; they are numbered here in the allocation
order of the source (all distinct):
1 pbrShader, 2 cubeShader, 3 irradianceShader, 4 prefilterShader,
5 brdfShader, 6 skyShader, 7 panorama texture, 8 captureFBO, 9 captureRBO,
10 cubemapId, 11 irradianceId, 12 prefilterId, 13 brdfId.

`glTexParameteri` filter/wrap settings, `glDepthFunc`, `glDisable`,
`glEnable` and `glLineWidth` (pbrcore.h lines 414-417 and the per-texture
parameter calls) configure sampler and raster state that no claim mentions
and are not recorded as events.  The perspective field of view is recorded in
whole degrees (`MatrixPerspective(90.0f, ...)` for the capture projection,
`MatrixPerspective(60.0, ...)` at line 579 for the restored projection). -/

inductive EnvEvent
  | loadShader (id : ℕ) (vs fs : String)
  | loadTexture (id : ℕ) (filename : String)
  | genTexture (id : ℕ)
  | allocCubeFaces (texId size : ℕ)
  | allocTexture2D (texId size : ℕ)
  | genMipmaps (texId : ℕ)
  | useProgram (id : ℕ)
  | uploadUnit (shaderId : ℕ) (name : String) (unit : Int)
  | setProjection (shaderId : ℕ) (fovDegrees : ℕ) (aspect : ℚ)
  | setViewFace (shaderId : ℕ) (face : ℕ)
  | setRoughness (value : ℚ)
  | activeTexture (unit : ℕ)
  | bindTexture2D (id : ℕ)
  | bindTextureCubemap (id : ℕ)
  | bindFramebuffer (id : ℕ)
  | bindRenderbuffer (id : ℕ)
  | renderbufferStorage (width height : ℕ)
  | viewport (width height : ℕ)
  | attachCubeFace (face texId mipLevel : ℕ)
  | attachTexture2D (texId mipLevel : ℕ)
  | clear
  | renderCube
  | renderQuad
deriving Repr, DecidableEq

/-- One iteration block of the six-face capture loops (pbrcore.h lines
464-470, 499-505, 543-549): set the face view, attach the cube face at the
given mip level, clear, render the unit cube. -/
def faceRenderEvents (shaderId texId mipLevel : ℕ) : List EnvEvent :=
  (List.range 6).flatMap fun i =>
    [.setViewFace shaderId i, .attachCubeFace i texId mipLevel, .clear,
     .renderCube]

/-- `mipWidth = (unsigned int)(prefilterSize*powf(0.5f, mip))` (pbrcore.h
line 534).  For `prefilterSize < 2^24` the float product is exact and the
cast truncates, i.e. floor division by `2^mip`. -/
def mipSize (prefilterSize mip : ℕ) : ℕ := prefilterSize / 2 ^ mip

/-- One mip level of the specular prefiltering loop (pbrcore.h lines
531-550): resize the capture renderbuffer and viewport to the mip size,
upload `roughness = mip/(MAX_MIPMAP_LEVELS - 1)`, then render the six faces
into mip level `mip` of the prefilter cubemap (id 12). -/
def prefilterMipEvents (prefilterSize mip : ℕ) : List EnvEvent :=
  [ .bindRenderbuffer 9,
    .renderbufferStorage (mipSize prefilterSize mip) (mipSize prefilterSize mip),
    .viewport (mipSize prefilterSize mip) (mipSize prefilterSize mip),
    .setRoughness ((mip : ℚ) / ((MAX_MIPMAP_LEVELS : ℚ) - 1)) ]
  ++ faceRenderEvents 4 12 mip

/-- The whole prefilter mip loop, `mip = 0 .. MAX_MIPMAP_LEVELS - 1`. -/
def prefilterMipLoop (prefilterSize : ℕ) : List EnvEvent :=
  (List.range MAX_MIPMAP_LEVELS).flatMap (prefilterMipEvents prefilterSize)

/-- Shader loading and sampler-unit setup (pbrcore.h lines 369-411). -/
def envShaderSetupEvents : List EnvEvent :=
  [ .loadShader 1 "resources/shaders/pbr.vs" "resources/shaders/pbr.fs",
    .loadShader 2 "resources/shaders/cubemap.vs" "resources/shaders/cubemap.fs",
    .loadShader 3 "resources/shaders/skybox.vs" "resources/shaders/irradiance.fs",
    .loadShader 4 "resources/shaders/skybox.vs" "resources/shaders/prefilter.fs",
    .loadShader 5 "resources/shaders/brdf.vs" "resources/shaders/brdf.fs",
    .loadShader 6 "resources/shaders/skybox.vs" "resources/shaders/skybox.fs",
    .uploadUnit 1 "irradianceMap" 0,
    .uploadUnit 1 "prefilterMap" 1,
    .uploadUnit 1 "brdfLUT" 2,
    .uploadUnit 2 "equirectangularMap" 0,
    .uploadUnit 3 "environmentMap" 0,
    .uploadUnit 4 "environmentMap" 0,
    .uploadUnit 6 "environmentMap" 0 ]

/-- Panorama decode: `LoadTexture(filename)` (pbrcore.h line 420). -/
def panoramaDecodeEvents (filename : String) : List EnvEvent :=
  [.loadTexture 7 filename]

/-- Capture framebuffer/renderbuffer setup and cubemap allocation
(pbrcore.h lines 423-440). -/
def captureSetupEvents (cubemapSize : ℕ) : List EnvEvent :=
  [ .bindFramebuffer 8, .bindRenderbuffer 9,
    .renderbufferStorage cubemapSize cubemapSize,
    .genTexture 10, .bindTextureCubemap 10, .allocCubeFaces 10 cubemapSize ]

/-- Equirectangular-to-cubemap conversion pass (pbrcore.h lines 454-473):
renders six faces into the cubemap (id 10), sampling the panorama. -/
def convertPassEvents (cubemapSize : ℕ) : List EnvEvent :=
  [ .useProgram 2, .activeTexture 0, .bindTexture2D 7,
    .setProjection 2 90 1,
    .viewport cubemapSize cubemapSize, .bindFramebuffer 8 ]
  ++ faceRenderEvents 2 10 0 ++ [.bindFramebuffer 0]

/-- Irradiance cubemap allocation and capture FBO re-scale (pbrcore.h lines
476-487). -/
def irradianceSetupEvents (irradianceSize : ℕ) : List EnvEvent :=
  [ .genTexture 11, .bindTextureCubemap 11, .allocCubeFaces 11 irradianceSize,
    .bindFramebuffer 8, .bindRenderbuffer 9,
    .renderbufferStorage irradianceSize irradianceSize ]

/-- Irradiance convolution pass (pbrcore.h lines 490-508): binds the cubemap
(id 10) as source and renders six faces into the irradiance map (id 11). -/
def irradiancePassEvents (irradianceSize : ℕ) : List EnvEvent :=
  [ .useProgram 3, .activeTexture 0, .bindTextureCubemap 10,
    .setProjection 3 90 1,
    .viewport irradianceSize irradianceSize, .bindFramebuffer 8 ]
  ++ faceRenderEvents 3 11 0 ++ [.bindFramebuffer 0]

/-- Prefilter cubemap allocation with mip chain (pbrcore.h lines 511-521). -/
def prefilterSetupEvents (prefilterSize : ℕ) : List EnvEvent :=
  [ .genTexture 12, .bindTextureCubemap 12, .allocCubeFaces 12 prefilterSize,
    .genMipmaps 12 ]

/-- Specular prefiltering pass (pbrcore.h lines 524-553): binds the cubemap
(id 10) as source, then runs the mip loop into the prefilter map (id 12). -/
def prefilterPassEvents (prefilterSize : ℕ) : List EnvEvent :=
  [ .useProgram 4, .activeTexture 0, .bindTextureCubemap 10,
    .setProjection 4 90 1, .bindFramebuffer 8 ]
  ++ prefilterMipLoop prefilterSize ++ [.bindFramebuffer 0]

/-- BRDF LUT texture allocation and render (pbrcore.h lines 556-576). -/
def brdfPassEvents (brdfSize : ℕ) : List EnvEvent :=
  [ .genTexture 13, .bindTexture2D 13, .allocTexture2D 13 brdfSize,
    .bindFramebuffer 8, .bindRenderbuffer 9,
    .renderbufferStorage brdfSize brdfSize,
    .attachTexture2D 13 0,
    .viewport brdfSize brdfSize, .useProgram 5, .clear, .renderQuad,
    .bindFramebuffer 0 ]

/-- Viewport/projection restore (pbrcore.h lines 579-588): pushes
`MatrixPerspective(60.0, screenWidth/screenHeight, ...)` into the cube,
skybox, irradiance and prefilter shaders and resets the viewport to the
screen dimensions.  The 60-degree field of view is a literal in the source;
`LoadEnvironment` has no field-of-view parameter. -/
def restoreEvents (screenWidth screenHeight : ℕ) : List EnvEvent :=
  [ .setProjection 2 60 ((screenWidth : ℚ) / (screenHeight : ℚ)),
    .setProjection 6 60 ((screenWidth : ℚ) / (screenHeight : ℚ)),
    .setProjection 3 60 ((screenWidth : ℚ) / (screenHeight : ℚ)),
    .setProjection 4 60 ((screenWidth : ℚ) / (screenHeight : ℚ)),
    .viewport screenWidth screenHeight ]

/-- `LoadEnvironment` as its full ordered GPU call trace.  `screenWidth` and
`screenHeight` are the values returned by `GetScreenWidth()` and
`GetScreenHeight()` at lines 579 and 588. -/
def LoadEnvironment (filename : String)
    (cubemapSize irradianceSize prefilterSize brdfSize : ℕ)
    (screenWidth screenHeight : ℕ) : List EnvEvent :=
  envShaderSetupEvents
  ++ panoramaDecodeEvents filename
  ++ captureSetupEvents cubemapSize
  ++ convertPassEvents cubemapSize
  ++ irradianceSetupEvents irradianceSize
  ++ irradiancePassEvents irradianceSize
  ++ prefilterSetupEvents prefilterSize
  ++ prefilterPassEvents prefilterSize
  ++ brdfPassEvents brdfSize
  ++ restoreEvents screenWidth screenHeight

/-! ### Trace observation helpers -/

/-- The values of all `roughness` uniform uploads in a trace, in order. -/
def roughnessValues (evts : List EnvEvent) : List ℚ :=
  evts.filterMap fun e =>
    match e with
    | .setRoughness v => some v
    | _ => none

/-- Number of cube-face renders attached to `texId` at mip level `mip`. -/
def faceRendersInto (evts : List EnvEvent) (texId mip : ℕ) : ℕ :=
  (evts.filter fun e =>
    match e with
    | .attachCubeFace _ t m => decide (t = texId) && decide (m = mip)
    | _ => false).length

/-- The dimensions of all `glViewport` calls in a trace, in order. -/
def viewportDims (evts : List EnvEvent) : List (ℕ × ℕ) :=
  evts.filterMap fun e =>
    match e with
    | .viewport w h => some (w, h)
    | _ => none

/-- All perspective projection uploads `(shaderId, fovDegrees)` in order. -/
def projectionPushes (evts : List EnvEvent) : List (ℕ × ℕ) :=
  evts.filterMap fun e =>
    match e with
    | .setProjection sid fov _ => some (sid, fov)
    | _ => none

/-- All p-events of a trace occur strictly before all q-events: the trace
splits into a prefix free of q-events and a suffix free of p-events. -/
def eventsBefore (p q : EnvEvent → Bool) (evts : List EnvEvent) : Prop :=
  ∃ l₁ l₂, evts = l₁ ++ l₂
    ∧ (l₁.all fun e => !q e) = true
    ∧ (l₂.all fun e => !p e) = true

def isPanoramaDecode : EnvEvent → Bool
  | .loadTexture id _ => id == 7
  | _ => false

/-- A conversion-pass render target attachment: a cube face of the cubemap
(id 10). -/
def isConvertRender : EnvEvent → Bool
  | .attachCubeFace _ t _ => t == 10
  | _ => false

def isIrradianceRender : EnvEvent → Bool
  | .attachCubeFace _ t _ => t == 11
  | _ => false

def isPrefilterRender : EnvEvent → Bool
  | .attachCubeFace _ t _ => t == 12
  | _ => false

def isBrdfRender : EnvEvent → Bool
  | .renderQuad => true
  | _ => false

/-- A read binding of the cubemap produced by the conversion pass. -/
def isCubemapSourceBind : EnvEvent → Bool
  | .bindTextureCubemap id => id == 10
  | _ => false

def isCaptureProjection : EnvEvent → Bool
  | .setProjection _ fov _ => fov == 90
  | _ => false

def isDefaultProjection : EnvEvent → Bool
  | .setProjection _ fov _ => fov == 60
  | _ => false

/-! # Theorems -/

/-- Claim C8: for every material and property kind, `SetMaterialTexturePBR`
sets exactly that property's bitmap to the given texture and its `useBitmap`
flag to true, releases no texture, and leaves that property's constant color
and all six other properties (and the environment) unchanged;
`UnsetMaterialTexturePBR` applied afterwards sets `useBitmap` back to false,
frees exactly the attached texture's GPU memory, and leaves the property's
constant color and all other properties unchanged. -/
theorem claimC8_set_unset_material_texture (mat : MaterialPBR) (type : TypePBR)
    (texture : Texture2D) :
    (SetMaterialTexturePBR mat type texture).2 = []
    ∧ propOf (SetMaterialTexturePBR mat type texture).1 type =
        { bitmap := texture, useBitmap := true, color := (propOf mat type).color }
    ∧ (∀ q : TypePBR, q ≠ type →
        propOf (SetMaterialTexturePBR mat type texture).1 q = propOf mat q)
    ∧ (SetMaterialTexturePBR mat type texture).1.env = mat.env
    ∧ (UnsetMaterialTexturePBR (SetMaterialTexturePBR mat type texture).1 type).2 =
        [texture.id]
    ∧ propOf (UnsetMaterialTexturePBR (SetMaterialTexturePBR mat type texture).1 type).1 type =
        { bitmap := zeroTexture, useBitmap := false, color := (propOf mat type).color }
    ∧ (∀ q : TypePBR, q ≠ type →
        propOf (UnsetMaterialTexturePBR (SetMaterialTexturePBR mat type texture).1 type).1 q =
          propOf mat q)
    ∧ (UnsetMaterialTexturePBR (SetMaterialTexturePBR mat type texture).1 type).1.env =
        mat.env := by
  cases type <;>
    refine ⟨rfl, rfl, fun q hq => ?_, rfl, ?_, ?_, fun q hq => ?_, ?_⟩ <;>
    first
      | (cases q <;> simp_all [SetMaterialTexturePBR, UnsetMaterialTexturePBR,
          unsetProperty, propOf])
      | simp [SetMaterialTexturePBR, UnsetMaterialTexturePBR, unsetProperty,
          propOf]

/-- Witness for C8 at a concrete material, texture and property kind. -/
theorem claimC8_witness :
    (let mat : MaterialPBR :=
      { albedo := ⟨⟨0⟩, false, ⟨10, 20, 30, 255⟩⟩,
        normals := ⟨⟨0⟩, false, ⟨128, 128, 255, 255⟩⟩,
        metalness := ⟨⟨0⟩, false, ⟨200, 0, 0, 0⟩⟩,
        roughness := ⟨⟨0⟩, false, ⟨100, 0, 0, 0⟩⟩,
        ao := ⟨⟨0⟩, false, ⟨255, 255, 255, 255⟩⟩,
        emission := ⟨⟨0⟩, false, ⟨0, 0, 0, 0⟩⟩,
        height := ⟨⟨0⟩, false, ⟨0, 0, 0, 0⟩⟩,
        env := ⟨⟨1⟩, ⟨6⟩, 10, 11, 12, 13, 0, 0, 0⟩ }
     propOf (SetMaterialTexturePBR mat .PBR_ROUGHNESS ⟨5⟩).1 .PBR_ALBEDO =
        propOf mat .PBR_ALBEDO
      ∧ (UnsetMaterialTexturePBR (SetMaterialTexturePBR mat .PBR_ROUGHNESS ⟨5⟩).1
          .PBR_ROUGHNESS).2 = [5]
      ∧ propOf (UnsetMaterialTexturePBR
          (SetMaterialTexturePBR mat .PBR_ROUGHNESS ⟨5⟩).1 .PBR_ROUGHNESS).1
          .PBR_ALBEDO = propOf mat .PBR_ALBEDO) :=
  ⟨(claimC8_set_unset_material_texture _ _ _).2.2.1 _ (by decide),
   (claimC8_set_unset_material_texture _ _ _).2.2.2.2.1,
   (claimC8_set_unset_material_texture _ _ _).2.2.2.2.2.2.1 _ (by decide)⟩

/-- Claim C9: `UpdateLightValues` uploads exactly the light's enabled flag,
type, position, target, and colour with every channel divided by 255, to the
light's cached uniform locations, and is idempotent. -/
theorem claimC9_update_light_values (light : Light) (s : UniformState)
    (hdist : List.Pairwise (fun a b => a ≠ b)
      [light.enabledLoc, light.typeLoc, light.posLoc, light.targetLoc,
       light.colorLoc]) :
    UpdateLightValues light s light.enabledLoc = some (.ints [b2i light.enabled])
    ∧ UpdateLightValues light s light.typeLoc = some (.ints [light.type])
    ∧ UpdateLightValues light s light.posLoc =
        some (.floats [light.position.x, light.position.y, light.position.z])
    ∧ UpdateLightValues light s light.targetLoc =
        some (.floats [light.target.x, light.target.y, light.target.z])
    ∧ UpdateLightValues light s light.colorLoc =
        some (.floats [(light.color.r : ℚ) / 255, (light.color.g : ℚ) / 255,
          (light.color.b : ℚ) / 255, (light.color.a : ℚ) / 255])
    ∧ (∀ l : Int, l ∉ [light.enabledLoc, light.typeLoc, light.posLoc,
          light.targetLoc, light.colorLoc] →
        UpdateLightValues light s l = s l)
    ∧ UpdateLightValues light (UpdateLightValues light s) =
        UpdateLightValues light s := by
  simp only [List.pairwise_cons, List.mem_cons, List.mem_singleton,
    List.not_mem_nil] at hdist
  obtain ⟨he, ht, hp, htg, -⟩ := hdist
  have het : light.enabledLoc ≠ light.typeLoc := he _ (Or.inl rfl)
  have hep : light.enabledLoc ≠ light.posLoc := he _ (Or.inr (Or.inl rfl))
  have hetg : light.enabledLoc ≠ light.targetLoc :=
    he _ (Or.inr (Or.inr (Or.inl rfl)))
  have hec : light.enabledLoc ≠ light.colorLoc :=
    he _ (Or.inr (Or.inr (Or.inr (Or.inl rfl))))
  have htp : light.typeLoc ≠ light.posLoc := ht _ (Or.inl rfl)
  have httg : light.typeLoc ≠ light.targetLoc := ht _ (Or.inr (Or.inl rfl))
  have htc : light.typeLoc ≠ light.colorLoc :=
    ht _ (Or.inr (Or.inr (Or.inl rfl)))
  have hptg : light.posLoc ≠ light.targetLoc := hp _ (Or.inl rfl)
  have hpc : light.posLoc ≠ light.colorLoc := hp _ (Or.inr (Or.inl rfl))
  have htgc : light.targetLoc ≠ light.colorLoc := htg _ (Or.inl rfl)
  refine ⟨?_, ?_, ?_, ?_, ?_, ?_, ?_⟩
  · simp [UpdateLightValues, setUniform, het, hep, hetg, hec]
  · simp [UpdateLightValues, setUniform, htp, httg, htc, het.symm]
  · simp [UpdateLightValues, setUniform, hptg, hpc]
  · simp [UpdateLightValues, setUniform, htgc]
  · simp [UpdateLightValues, setUniform, colorNormalize]
  · intro l hl
    simp only [List.mem_cons, List.not_mem_nil, or_false, not_or] at hl
    obtain ⟨hl1, hl2, hl3, hl4, hl5⟩ := hl
    simp [UpdateLightValues, setUniform, hl1, hl2, hl3, hl4, hl5]
  · funext l
    simp only [UpdateLightValues, setUniform]
    split_ifs <;> rfl

/-- Witness for C9 at a concrete light and empty uniform store. -/
theorem claimC9_witness :
    (let light : Light :=
      { enabled := true, type := 1, position := ⟨1, 2, 3⟩, target := ⟨0, 0, 0⟩,
        color := ⟨255, 128, 0, 255⟩, enabledLoc := 1, typeLoc := 2, posLoc := 3,
        targetLoc := 4, colorLoc := 5 }
     UpdateLightValues light emptyUniforms 5 =
        some (.floats [(255 : ℚ) / 255, (128 : ℚ) / 255, (0 : ℚ) / 255,
          (255 : ℚ) / 255])
      ∧ UpdateLightValues light emptyUniforms 99 = emptyUniforms 99
      ∧ UpdateLightValues light (UpdateLightValues light emptyUniforms) =
          UpdateLightValues light emptyUniforms) :=
  ⟨(claimC9_update_light_values _ emptyUniforms (by decide)).2.2.2.2.1,
   (claimC9_update_light_values _ emptyUniforms (by decide)).2.2.2.2.2.1 99
     (by decide),
   (claimC9_update_light_values _ emptyUniforms (by decide)).2.2.2.2.2.2⟩

/-- Claim C6: for a successful `CreateLight` at counter value `i < 4`, the
five uniform names queried on the environment's PBR shader are exactly the
strings of the `lights` array-of-structs convention with `i` substituted as a
single decimal digit. -/
theorem claimC6_light_uniform_names (type : Int) (pos targ : Vector3)
    (color : Color) (locOf : String → Int) (shader : UniformState) (i : ℕ)
    (h : i < MAX_LIGHTS) :
    (CreateLight type pos targ color locOf i shader).queriedNames =
      [ "lights[" ++ toString i ++ "].enabled",
        "lights[" ++ toString i ++ "].type",
        "lights[" ++ toString i ++ "].position",
        "lights[" ++ toString i ++ "].target",
        "lights[" ++ toString i ++ "].color" ] := by
  simp only [CreateLight, h, if_true]
  simp only [MAX_LIGHTS] at h
  interval_cases i <;> rfl

/-- Witness for C6 at counter value 2. -/
theorem claimC6_witness :
    (CreateLight 1 ⟨0, 0, 0⟩ ⟨0, 0, 0⟩ ⟨255, 0, 0, 255⟩ (fun _ => 7) 2
      emptyUniforms).queriedNames =
      ["lights[2].enabled", "lights[2].type", "lights[2].position",
       "lights[2].target", "lights[2].color"] :=
  claimC6_light_uniform_names 1 ⟨0, 0, 0⟩ ⟨0, 0, 0⟩ ⟨255, 0, 0, 255⟩
    (fun _ => 7) emptyUniforms 2 (by decide)

/-- Claim C1: if the light count has reached `MAX_LIGHTS`, `CreateLight`
fails silently — it returns the zeroed light (with `enabled = false`), leaves
the counter and the shader untouched; otherwise it returns an enabled light
carrying the given type, position, target and colour, reserves slot
`lightsCount` (querying that slot's uniform names), uploads the initial
values via `UpdateLightValues`, and increments the counter by exactly one. -/
theorem claimC1_create_light (type : Int) (pos targ : Vector3) (color : Color)
    (locOf : String → Int) (n : ℕ) (shader : UniformState) :
    (MAX_LIGHTS ≤ n →
      (CreateLight type pos targ color locOf n shader).light = zeroLight
      ∧ (CreateLight type pos targ color locOf n shader).light.enabled = false
      ∧ (CreateLight type pos targ color locOf n shader).lightsCount = n
      ∧ (CreateLight type pos targ color locOf n shader).shader = shader)
    ∧ (n < MAX_LIGHTS →
      (CreateLight type pos targ color locOf n shader).light.enabled = true
      ∧ (CreateLight type pos targ color locOf n shader).light.type = type
      ∧ (CreateLight type pos targ color locOf n shader).light.position = pos
      ∧ (CreateLight type pos targ color locOf n shader).light.target = targ
      ∧ (CreateLight type pos targ color locOf n shader).light.color = color
      ∧ (CreateLight type pos targ color locOf n shader).light.enabledLoc =
          locOf (lightUniformName "lights[x].enabled" n)
      ∧ (CreateLight type pos targ color locOf n shader).light.colorLoc =
          locOf (lightUniformName "lights[x].color" n)
      ∧ (CreateLight type pos targ color locOf n shader).queriedNames =
          createLightNames n
      ∧ (CreateLight type pos targ color locOf n shader).lightsCount = n + 1
      ∧ (CreateLight type pos targ color locOf n shader).shader =
          UpdateLightValues
            (CreateLight type pos targ color locOf n shader).light shader) := by
  constructor
  · intro h
    simp [CreateLight, Nat.not_lt.mpr h, zeroLight]
  · intro h
    simp [CreateLight, h]

/-- Witness for C1: at counter 4 the call is rejected (nothing changes), at
counter 2 it succeeds and bumps the counter to 3. -/
theorem claimC1_witness :
    ((CreateLight 1 ⟨1, 2, 3⟩ ⟨0, 0, 0⟩ ⟨255, 0, 0, 255⟩ (fun _ => 7) 4
        emptyUniforms).light = zeroLight
      ∧ (CreateLight 1 ⟨1, 2, 3⟩ ⟨0, 0, 0⟩ ⟨255, 0, 0, 255⟩ (fun _ => 7) 4
          emptyUniforms).lightsCount = 4)
    ∧ ((CreateLight 1 ⟨1, 2, 3⟩ ⟨0, 0, 0⟩ ⟨255, 0, 0, 255⟩ (fun _ => 7) 2
          emptyUniforms).light.enabled = true
      ∧ (CreateLight 1 ⟨1, 2, 3⟩ ⟨0, 0, 0⟩ ⟨255, 0, 0, 255⟩ (fun _ => 7) 2
          emptyUniforms).lightsCount = 3) :=
  ⟨⟨((claimC1_create_light 1 ⟨1, 2, 3⟩ ⟨0, 0, 0⟩ ⟨255, 0, 0, 255⟩ (fun _ => 7) 4
        emptyUniforms).1 (by decide)).1,
    ((claimC1_create_light 1 ⟨1, 2, 3⟩ ⟨0, 0, 0⟩ ⟨255, 0, 0, 255⟩ (fun _ => 7) 4
        emptyUniforms).1 (by decide)).2.2.1⟩,
   ⟨((claimC1_create_light 1 ⟨1, 2, 3⟩ ⟨0, 0, 0⟩ ⟨255, 0, 0, 255⟩ (fun _ => 7) 2
        emptyUniforms).2 (by decide)).1,
    ((claimC1_create_light 1 ⟨1, 2, 3⟩ ⟨0, 0, 0⟩ ⟨255, 0, 0, 255⟩ (fun _ => 7) 2
        emptyUniforms).2 (by decide)).2.2.2.2.2.2.2.2.1⟩⟩

/-- Each library operation leaves the global light counter unchanged or
(successful `CreateLight` only) increments it by one. -/
theorem stepOp_lightsCount_le (s : ProcState) (op : ProcOp) :
    s.lightsCount ≤ (stepOp s op).lightsCount := by
  cases op <;> try exact le_rfl
  simp only [stepOp, CreateLight]
  split <;> simp

/-- Claim C3: the global light counter is monotone non-decreasing over the
process lifetime; it changes only when a `CreateLight` call succeeds (then by
exactly one), `UnloadEnvironment` leaves it unchanged, and `GetLightsCount`
returns its current value — so reloading the environment never frees light
slots. -/
theorem claimC3_lights_count_monotone (s : ProcState) (ops : List ProcOp)
    (e : Environment) (op : ProcOp) :
    s.lightsCount ≤ (runOps s ops).lightsCount
    ∧ (stepOp s (.unloadEnvironment e)).lightsCount = s.lightsCount
    ∧ GetLightsCount (runOps s ops).lightsCount = (runOps s ops).lightsCount
    ∧ ((stepOp s op).lightsCount = s.lightsCount
        ∨ ∃ type pos targ color locOf,
            op = .createLight type pos targ color locOf
            ∧ s.lightsCount < MAX_LIGHTS
            ∧ (stepOp s op).lightsCount = s.lightsCount + 1) := by
  refine ⟨?_, rfl, rfl, ?_⟩
  · induction ops generalizing s with
    | nil => exact le_rfl
    | cons op₀ rest ih =>
        exact le_trans (stepOp_lightsCount_le s op₀) (ih (stepOp s op₀))
  · cases op <;> try exact Or.inl rfl
    case createLight type pos targ color locOf =>
      by_cases h : s.lightsCount < MAX_LIGHTS
      · exact Or.inr ⟨type, pos, targ, color, locOf, rfl, h,
          by simp [stepOp, CreateLight, h]⟩
      · exact Or.inl (by simp [stepOp, CreateLight, h])

/-! ### DrawModelPBR texture-unit lemmas -/

theorem applyDrawEvents_append (s : GlTexState) (l₁ l₂ : List DrawEvent) :
    applyDrawEvents s (l₁ ++ l₂) = applyDrawEvents (applyDrawEvents s l₁) l₂ :=
  List.foldl_append _ _ _ _

theorem applyDrawEvents_bindIf (s : GlTexState) (b : Bool) (u id : ℕ) :
    applyDrawEvents s (bindIf b u id) =
      if b then
        { s with activeUnit := u,
                 bound2D := fun v => if v = u then id else s.bound2D v }
      else s := by
  cases b <;> simp [bindIf, applyDrawEvents, applyDrawEvent]

/-- Claim C2: if the material's height property uses a bitmap, the height
texture is bound to unit 9 before the internal draw call, and after
`DrawModelPBR` finishes unit 9 still holds that binding (it is never rebound
to 0), while the cube-map bindings of units 0 and 1 and the 2D binding of
unit 2 are rebound to 0. -/
theorem claimC2_height_unit_not_unbound (mat : MaterialPBR)
    (position rotationAxis : Vector3) (rotationAngle : ℚ) (scale : Vector3)
    (s : GlTexState) (h : mat.height.useBitmap = true) :
    (applyDrawEvents s
        (drawSetupEvents mat position rotationAxis rotationAngle scale)).bound2D 9 =
      mat.height.bitmap.id
    ∧ (applyDrawEvents s
        (DrawModelPBR mat position rotationAxis rotationAngle scale)).bound2D 9 =
      (applyDrawEvents s
        (drawSetupEvents mat position rotationAxis rotationAngle scale)).bound2D 9
    ∧ (applyDrawEvents s
        (DrawModelPBR mat position rotationAxis rotationAngle scale)).boundCube 0 = 0
    ∧ (applyDrawEvents s
        (DrawModelPBR mat position rotationAxis rotationAngle scale)).boundCube 1 = 0
    ∧ (applyDrawEvents s
        (DrawModelPBR mat position rotationAxis rotationAngle scale)).bound2D 2 = 0 := by
  simp only [DrawModelPBR, drawSetupEvents, drawUnbindEvents,
    applyDrawEvents_append, applyDrawEvents_bindIf, h, if_true]
  simp [applyDrawEvents, applyDrawEvent, apply_ite (GlTexState.bound2D),
    apply_ite (GlTexState.boundCube), apply_ite (GlTexState.activeUnit),
    ite_apply]

/-- Witness for C2 at a concrete material (height bitmap id 5) and a concrete
initial binding state. -/
theorem claimC2_witness :
    (applyDrawEvents ⟨0, fun u => 100 + u, fun u => 200 + u⟩
      (DrawModelPBR
        { albedo := ⟨⟨0⟩, false, ⟨255, 255, 255, 255⟩⟩,
          normals := ⟨⟨0⟩, false, ⟨128, 128, 255, 255⟩⟩,
          metalness := ⟨⟨0⟩, false, ⟨255, 0, 0, 0⟩⟩,
          roughness := ⟨⟨0⟩, false, ⟨255, 0, 0, 0⟩⟩,
          ao := ⟨⟨0⟩, false, ⟨255, 255, 255, 255⟩⟩,
          emission := ⟨⟨0⟩, false, ⟨0, 0, 0, 0⟩⟩,
          height := ⟨⟨5⟩, true, ⟨0, 0, 0, 0⟩⟩,
          env := ⟨⟨1⟩, ⟨6⟩, 10, 11, 12, 13, 0, 0, 0⟩ }
        ⟨0, 0, 0⟩ ⟨0, 1, 0⟩ 0 ⟨1, 1, 1⟩)).bound2D 9 = 5
    ∧ (applyDrawEvents ⟨0, fun u => 100 + u, fun u => 200 + u⟩
      (DrawModelPBR
        { albedo := ⟨⟨0⟩, false, ⟨255, 255, 255, 255⟩⟩,
          normals := ⟨⟨0⟩, false, ⟨128, 128, 255, 255⟩⟩,
          metalness := ⟨⟨0⟩, false, ⟨255, 0, 0, 0⟩⟩,
          roughness := ⟨⟨0⟩, false, ⟨255, 0, 0, 0⟩⟩,
          ao := ⟨⟨0⟩, false, ⟨255, 255, 255, 255⟩⟩,
          emission := ⟨⟨0⟩, false, ⟨0, 0, 0, 0⟩⟩,
          height := ⟨⟨5⟩, true, ⟨0, 0, 0, 0⟩⟩,
          env := ⟨⟨1⟩, ⟨6⟩, 10, 11, 12, 13, 0, 0, 0⟩ }
        ⟨0, 0, 0⟩ ⟨0, 1, 0⟩ 0 ⟨1, 1, 1⟩)).boundCube 0 = 0 := by
  refine ⟨?_, ?_⟩
  · have h := claimC2_height_unit_not_unbound
      { albedo := ⟨⟨0⟩, false, ⟨255, 255, 255, 255⟩⟩,
        normals := ⟨⟨0⟩, false, ⟨128, 128, 255, 255⟩⟩,
        metalness := ⟨⟨0⟩, false, ⟨255, 0, 0, 0⟩⟩,
        roughness := ⟨⟨0⟩, false, ⟨255, 0, 0, 0⟩⟩,
        ao := ⟨⟨0⟩, false, ⟨255, 255, 255, 255⟩⟩,
        emission := ⟨⟨0⟩, false, ⟨0, 0, 0, 0⟩⟩,
        height := ⟨⟨5⟩, true, ⟨0, 0, 0, 0⟩⟩,
        env := ⟨⟨1⟩, ⟨6⟩, 10, 11, 12, 13, 0, 0, 0⟩ }
      ⟨0, 0, 0⟩ ⟨0, 1, 0⟩ 0 ⟨1, 1, 1⟩ ⟨0, fun u => 100 + u, fun u => 200 + u⟩
      rfl
    exact h.2.1.trans h.1
  · exact (claimC2_height_unit_not_unbound
      { albedo := ⟨⟨0⟩, false, ⟨255, 255, 255, 255⟩⟩,
        normals := ⟨⟨0⟩, false, ⟨128, 128, 255, 255⟩⟩,
        metalness := ⟨⟨0⟩, false, ⟨255, 0, 0, 0⟩⟩,
        roughness := ⟨⟨0⟩, false, ⟨255, 0, 0, 0⟩⟩,
        ao := ⟨⟨0⟩, false, ⟨255, 255, 255, 255⟩⟩,
        emission := ⟨⟨0⟩, false, ⟨0, 0, 0, 0⟩⟩,
        height := ⟨⟨5⟩, true, ⟨0, 0, 0, 0⟩⟩,
        env := ⟨⟨1⟩, ⟨6⟩, 10, 11, 12, 13, 0, 0, 0⟩ }
      ⟨0, 0, 0⟩ ⟨0, 1, 0⟩ 0 ⟨1, 1, 1⟩ ⟨0, fun u => 100 + u, fun u => 200 + u⟩
      rfl).2.2.1

/-- Claim C7 (failing-input evaluation): with `emission.useBitmap = false`
and `height.useBitmap = true`, `DrawModelPBR` clobbers the 2D binding of
texture unit 8 — the emission property's fixed unit — rebinding it to 0,
although unit 8's binding was 108 before the call.  The source's height
unbind block (pbrcore.h lines 785-790, whose own comment says it disables the
parallax height map) activates `GL_TEXTURE8` instead of `GL_TEXTURE9`, so a
`useBitmap = false` property's unit is not always left untouched as the
claim requires. -/
theorem claimC7_emission_unit_clobbered :
    ({ albedo := ⟨⟨0⟩, false, ⟨255, 255, 255, 255⟩⟩,
       normals := ⟨⟨0⟩, false, ⟨128, 128, 255, 255⟩⟩,
       metalness := ⟨⟨0⟩, false, ⟨255, 0, 0, 0⟩⟩,
       roughness := ⟨⟨0⟩, false, ⟨255, 0, 0, 0⟩⟩,
       ao := ⟨⟨0⟩, false, ⟨255, 255, 255, 255⟩⟩,
       emission := ⟨⟨0⟩, false, ⟨0, 0, 0, 0⟩⟩,
       height := ⟨⟨5⟩, true, ⟨0, 0, 0, 0⟩⟩,
       env := ⟨⟨1⟩, ⟨6⟩, 10, 11, 12, 13, 0, 0, 0⟩ } : MaterialPBR).emission.useBitmap
      = false
    ∧ (GlTexState.bound2D ⟨0, fun u => 100 + u, fun u => 200 + u⟩ 8 = 108)
    ∧ (applyDrawEvents ⟨0, fun u => 100 + u, fun u => 200 + u⟩
        (DrawModelPBR
          { albedo := ⟨⟨0⟩, false, ⟨255, 255, 255, 255⟩⟩,
            normals := ⟨⟨0⟩, false, ⟨128, 128, 255, 255⟩⟩,
            metalness := ⟨⟨0⟩, false, ⟨255, 0, 0, 0⟩⟩,
            roughness := ⟨⟨0⟩, false, ⟨255, 0, 0, 0⟩⟩,
            ao := ⟨⟨0⟩, false, ⟨255, 255, 255, 255⟩⟩,
            emission := ⟨⟨0⟩, false, ⟨0, 0, 0, 0⟩⟩,
            height := ⟨⟨5⟩, true, ⟨0, 0, 0, 0⟩⟩,
            env := ⟨⟨1⟩, ⟨6⟩, 10, 11, 12, 13, 0, 0, 0⟩ }
          ⟨0, 0, 0⟩ ⟨0, 1, 0⟩ 0 ⟨1, 1, 1⟩)).bound2D 8 = 0 :=
  ⟨rfl, rfl, rfl⟩

/-- Claim C10: `DrawModelPBR` uploads the roughness constant colour inverted
(each channel as `1 - c/255`) while every other property's constant colour is
uploaded as `c/255`; the shader-visible roughness constant is therefore the
channel-wise complement of the value stored by `SetupMaterialPBR`. -/
theorem claimC10_roughness_color_inverted (mat : MaterialPBR)
    (position rotationAxis : Vector3) (rotationAngle : ℚ) (scale : Vector3)
    (env : Environment) (albedo : Color) (metalness roughness : ℕ) :
    uploadOfF (DrawModelPBR mat position rotationAxis rotationAngle scale)
        "roughness.color" = some (colorRGBInv mat.roughness.color)
    ∧ uploadOfF (DrawModelPBR mat position rotationAxis rotationAngle scale)
        "albedo.color" = some (colorRGB mat.albedo.color)
    ∧ uploadOfF (DrawModelPBR mat position rotationAxis rotationAngle scale)
        "normals.color" = some (colorRGB mat.normals.color)
    ∧ uploadOfF (DrawModelPBR mat position rotationAxis rotationAngle scale)
        "metalness.color" = some (colorRGB mat.metalness.color)
    ∧ uploadOfF (DrawModelPBR mat position rotationAxis rotationAngle scale)
        "ao.color" = some (colorRGB mat.ao.color)
    ∧ uploadOfF (DrawModelPBR mat position rotationAxis rotationAngle scale)
        "emission.color" = some (colorRGB mat.emission.color)
    ∧ uploadOfF (DrawModelPBR mat position rotationAxis rotationAngle scale)
        "height.color" = some (colorRGB mat.height.color)
    ∧ colorRGBInv mat.roughness.color =
        (colorRGB mat.roughness.color).map (fun v => 1 - v)
    ∧ (SetupMaterialPBR env albedo metalness roughness).1.roughness.color =
        ⟨roughness % 256, 0, 0, 0⟩
    ∧ uploadOfF (DrawModelPBR (SetupMaterialPBR env albedo metalness roughness).1
          position rotationAxis rotationAngle scale) "roughness.color" =
        some [1 - (roughness % 256 : ℕ) / (255 : ℚ), 1, 1] := by
  refine ⟨rfl, rfl, rfl, rfl, rfl, rfl, rfl, by simp [colorRGB, colorRGBInv],
    rfl, ?_⟩
  show some (colorRGBInv ⟨roughness % 256, 0, 0, 0⟩) = _
  norm_num [colorRGBInv]

/-- The six-face loop unrolled (the loop bound is the literal 6). -/
theorem faceRenderEvents_eq (shaderId texId mipLevel : ℕ) :
    faceRenderEvents shaderId texId mipLevel =
      [ .setViewFace shaderId 0, .attachCubeFace 0 texId mipLevel, .clear,
        .renderCube,
        .setViewFace shaderId 1, .attachCubeFace 1 texId mipLevel, .clear,
        .renderCube,
        .setViewFace shaderId 2, .attachCubeFace 2 texId mipLevel, .clear,
        .renderCube,
        .setViewFace shaderId 3, .attachCubeFace 3 texId mipLevel, .clear,
        .renderCube,
        .setViewFace shaderId 4, .attachCubeFace 4 texId mipLevel, .clear,
        .renderCube,
        .setViewFace shaderId 5, .attachCubeFace 5 texId mipLevel, .clear,
        .renderCube ] := rfl

/-- The prefilter mip loop unrolled (the loop bound is
`MAX_MIPMAP_LEVELS = 5`). -/
theorem prefilterMipLoop_eq (prefilterSize : ℕ) :
    prefilterMipLoop prefilterSize =
      prefilterMipEvents prefilterSize 0 ++ (prefilterMipEvents prefilterSize 1
        ++ (prefilterMipEvents prefilterSize 2
        ++ (prefilterMipEvents prefilterSize 3
        ++ (prefilterMipEvents prefilterSize 4 ++ [])))) := rfl

theorem roughnessValues_append (l₁ l₂ : List EnvEvent) :
    roughnessValues (l₁ ++ l₂) = roughnessValues l₁ ++ roughnessValues l₂ :=
  List.filterMap_append _ _ _

/-- The roughness uniform uploads of one prefilter mip segment. -/
theorem roughnessValues_prefilterMipEvents (prefilterSize mip : ℕ) :
    roughnessValues (prefilterMipEvents prefilterSize mip) = [(mip : ℚ) / 4] := by
  simp [roughnessValues, prefilterMipEvents, faceRenderEvents_eq,
    MAX_MIPMAP_LEVELS]
  norm_num

/-- Claim C4: in the specular prefiltering step of `LoadEnvironment`, for
every mip level `mip < MAX_MIPMAP_LEVELS`, the roughness uploaded to the
prefilter shader is `mip/(MAX_MIPMAP_LEVELS - 1)` — the linear sequence
0, 1/4, 1/2, 3/4, 1 — the capture render target is resized to
`prefilterSize * 0.5^mip` per side (stated exactly via
`mipSize * 2^mip = prefilterSize`, assuming `2^mip` divides the size),
and exactly six cube-face renders are issued into mip level `mip` of the
prefilter cubemap. -/
theorem claimC4_prefilter_mip_levels (prefilterSize mip : ℕ)
    (hm : mip < MAX_MIPMAP_LEVELS) (hdiv : 2 ^ mip ∣ prefilterSize)
    (filename : String) (cubemapSize irradianceSize brdfSize screenW screenH : ℕ) :
    roughnessValues (prefilterMipLoop prefilterSize) =
      [0, 1/4, 1/2, 3/4, 1]
    ∧ roughnessValues (prefilterMipEvents prefilterSize mip) = [(mip : ℚ) / 4]
    ∧ mipSize prefilterSize mip * 2 ^ mip = prefilterSize
    ∧ viewportDims (prefilterMipEvents prefilterSize mip) =
        [(mipSize prefilterSize mip, mipSize prefilterSize mip)]
    ∧ EnvEvent.renderbufferStorage (mipSize prefilterSize mip)
        (mipSize prefilterSize mip) ∈ prefilterMipEvents prefilterSize mip
    ∧ faceRendersInto (prefilterMipEvents prefilterSize mip) 12 mip = 6
    ∧ faceRendersInto
        (LoadEnvironment filename cubemapSize irradianceSize prefilterSize
          brdfSize screenW screenH) 12 mip = 6 := by
  have hm5 : mip < 5 := hm
  refine ⟨?_, roughnessValues_prefilterMipEvents prefilterSize mip,
    Nat.div_mul_cancel hdiv, rfl, ?_, ?_, ?_⟩
  · rw [prefilterMipLoop_eq, roughnessValues_append, roughnessValues_append,
      roughnessValues_append, roughnessValues_append, roughnessValues_append,
      roughnessValues_prefilterMipEvents, roughnessValues_prefilterMipEvents,
      roughnessValues_prefilterMipEvents, roughnessValues_prefilterMipEvents,
      roughnessValues_prefilterMipEvents]
    norm_num [roughnessValues]
  · simp [prefilterMipEvents]
  · interval_cases mip <;> rfl
  · interval_cases mip <;> rfl

/-- Witness for C4 at `prefilterSize = 128`, `mip = 3`. -/
theorem claimC4_witness :
    roughnessValues (prefilterMipEvents 128 3) = [(3 : ℚ) / 4]
    ∧ mipSize 128 3 * 2 ^ 3 = 128
    ∧ faceRendersInto (prefilterMipEvents 128 3) 12 3 = 6
    ∧ faceRendersInto (LoadEnvironment "sky.hdr" 64 8 128 64 1366 768) 12 3 = 6 :=
  ⟨(claimC4_prefilter_mip_levels 128 3 (by decide) (by decide) "sky.hdr" 64 8
      64 1366 768).2.1,
   (claimC4_prefilter_mip_levels 128 3 (by decide) (by decide) "sky.hdr" 64 8
      64 1366 768).2.2.1,
   (claimC4_prefilter_mip_levels 128 3 (by decide) (by decide) "sky.hdr" 64 8
      64 1366 768).2.2.2.2.2.1,
   (claimC4_prefilter_mip_levels 128 3 (by decide) (by decide) "sky.hdr" 64 8
      64 1366 768).2.2.2.2.2.2⟩

/-- Claim C5 (amended): `LoadEnvironment` performs panorama decode, then the
equirectangular-to-cubemap conversion, then irradiance convolution, then
specular prefiltering, then the BRDF LUT render, and finally restores the
viewport to the window size and pushes a perspective projection — with a
fixed 60-degree field of view (hard-coded at pbrcore.h line 579, not taken
from any caller parameter) and the window's aspect ratio — into every shader
that was using the 90-degree-FOV capture projection.  The irradiance and
prefilter passes both bind (read) the cubemap produced by the conversion
pass, which strictly precedes both. -/
theorem claimC5_pass_ordering (filename : String)
    (c i p b w h : ℕ) :
    eventsBefore isPanoramaDecode isConvertRender
      (LoadEnvironment filename c i p b w h)
    ∧ eventsBefore isConvertRender isIrradianceRender
      (LoadEnvironment filename c i p b w h)
    ∧ eventsBefore isConvertRender isPrefilterRender
      (LoadEnvironment filename c i p b w h)
    ∧ eventsBefore isIrradianceRender isPrefilterRender
      (LoadEnvironment filename c i p b w h)
    ∧ eventsBefore isPrefilterRender isBrdfRender
      (LoadEnvironment filename c i p b w h)
    ∧ eventsBefore isBrdfRender isDefaultProjection
      (LoadEnvironment filename c i p b w h)
    ∧ eventsBefore isCaptureProjection isDefaultProjection
      (LoadEnvironment filename c i p b w h)
    ∧ EnvEvent.bindTextureCubemap 10 ∈ irradiancePassEvents i
    ∧ eventsBefore isCubemapSourceBind isIrradianceRender
      (irradiancePassEvents i)
    ∧ EnvEvent.bindTextureCubemap 10 ∈ prefilterPassEvents p
    ∧ eventsBefore isCubemapSourceBind isPrefilterRender
      (prefilterPassEvents p)
    ∧ (viewportDims (LoadEnvironment filename c i p b w h)).getLast? =
        some (w, h)
    ∧ projectionPushes (restoreEvents w h) = [(2, 60), (6, 60), (3, 60), (4, 60)]
    ∧ (∀ sid a, EnvEvent.setProjection sid 90 a ∈
          LoadEnvironment filename c i p b w h →
        EnvEvent.setProjection sid 60 ((w : ℚ) / (h : ℚ)) ∈
          LoadEnvironment filename c i p b w h) := by
  refine ⟨?_, ?_, ?_, ?_, ?_, ?_, ?_, ?_, ?_, ?_, ?_, ?_, rfl, ?_⟩
  · exact ⟨envShaderSetupEvents ++ panoramaDecodeEvents filename,
      captureSetupEvents c ++ convertPassEvents c ++ irradianceSetupEvents i
        ++ irradiancePassEvents i ++ prefilterSetupEvents p
        ++ prefilterPassEvents p ++ brdfPassEvents b ++ restoreEvents w h,
      by simp [LoadEnvironment, List.append_assoc], rfl, rfl⟩
  · exact ⟨envShaderSetupEvents ++ panoramaDecodeEvents filename
        ++ captureSetupEvents c ++ convertPassEvents c,
      irradianceSetupEvents i ++ irradiancePassEvents i
        ++ prefilterSetupEvents p ++ prefilterPassEvents p ++ brdfPassEvents b
        ++ restoreEvents w h,
      by simp [LoadEnvironment, List.append_assoc], rfl, rfl⟩
  · exact ⟨envShaderSetupEvents ++ panoramaDecodeEvents filename
        ++ captureSetupEvents c ++ convertPassEvents c,
      irradianceSetupEvents i ++ irradiancePassEvents i
        ++ prefilterSetupEvents p ++ prefilterPassEvents p ++ brdfPassEvents b
        ++ restoreEvents w h,
      by simp [LoadEnvironment, List.append_assoc], rfl, rfl⟩
  · exact ⟨envShaderSetupEvents ++ panoramaDecodeEvents filename
        ++ captureSetupEvents c ++ convertPassEvents c
        ++ irradianceSetupEvents i ++ irradiancePassEvents i,
      prefilterSetupEvents p ++ prefilterPassEvents p ++ brdfPassEvents b
        ++ restoreEvents w h,
      by simp [LoadEnvironment, List.append_assoc], rfl, rfl⟩
  · exact ⟨envShaderSetupEvents ++ panoramaDecodeEvents filename
        ++ captureSetupEvents c ++ convertPassEvents c
        ++ irradianceSetupEvents i ++ irradiancePassEvents i
        ++ prefilterSetupEvents p ++ prefilterPassEvents p,
      brdfPassEvents b ++ restoreEvents w h,
      by simp [LoadEnvironment, List.append_assoc], rfl, rfl⟩
  · exact ⟨envShaderSetupEvents ++ panoramaDecodeEvents filename
        ++ captureSetupEvents c ++ convertPassEvents c
        ++ irradianceSetupEvents i ++ irradiancePassEvents i
        ++ prefilterSetupEvents p ++ prefilterPassEvents p ++ brdfPassEvents b,
      restoreEvents w h,
      by simp [LoadEnvironment, List.append_assoc], rfl, rfl⟩
  · exact ⟨envShaderSetupEvents ++ panoramaDecodeEvents filename
        ++ captureSetupEvents c ++ convertPassEvents c
        ++ irradianceSetupEvents i ++ irradiancePassEvents i
        ++ prefilterSetupEvents p ++ prefilterPassEvents p ++ brdfPassEvents b,
      restoreEvents w h,
      by simp [LoadEnvironment, List.append_assoc], rfl, rfl⟩
  · simp [irradiancePassEvents]
  · refine ⟨[.useProgram 3, .activeTexture 0, .bindTextureCubemap 10],
      [.setProjection 3 90 1, .viewport i i, .bindFramebuffer 8]
        ++ faceRenderEvents 3 11 0 ++ [.bindFramebuffer 0],
      ?_, ?_, ?_⟩ <;> rfl
  · simp [prefilterPassEvents]
  · refine ⟨[.useProgram 4, .activeTexture 0, .bindTextureCubemap 10],
      [.setProjection 4 90 1, .bindFramebuffer 8]
        ++ prefilterMipLoop p ++ [.bindFramebuffer 0],
      ?_, ?_, ?_⟩ <;> rfl
  · rfl
  · intro sid a hmem
    simp [LoadEnvironment, envShaderSetupEvents, panoramaDecodeEvents,
      captureSetupEvents, convertPassEvents, irradianceSetupEvents,
      irradiancePassEvents, prefilterSetupEvents, prefilterPassEvents,
      brdfPassEvents, restoreEvents, faceRenderEvents, prefilterMipLoop,
      prefilterMipEvents, List.mem_append, List.mem_cons, List.mem_flatMap,
      List.mem_range, EnvEvent.setProjection.injEq] at hmem
    rcases hmem with ⟨rfl, rfl⟩ | ⟨rfl, rfl⟩ | ⟨rfl, rfl⟩ <;>
      simp [LoadEnvironment, envShaderSetupEvents, panoramaDecodeEvents,
        captureSetupEvents, convertPassEvents, irradianceSetupEvents,
        irradiancePassEvents, prefilterSetupEvents, prefilterPassEvents,
        brdfPassEvents, restoreEvents, List.mem_append, List.mem_cons]

/-- Witness for C5 at concrete sizes: the irradiance shader (id 3), which
received the 90-degree capture projection, receives the restored 60-degree
projection, and the final viewport is the screen size. -/
theorem claimC5_witness :
    EnvEvent.setProjection 3 60 ((1366 : ℚ) / (768 : ℚ)) ∈
      LoadEnvironment "sky.hdr" 64 8 32 64 1366 768
    ∧ (viewportDims (LoadEnvironment "sky.hdr" 64 8 32 64 1366 768)).getLast? =
        some (1366, 768) :=
  ⟨(claimC5_pass_ordering "sky.hdr" 64 8 32 64 1366 768).2.2.2.2.2.2.2.2.2.2.2.2.2
      3 1 (by decide),
   (claimC5_pass_ordering "sky.hdr" 64 8 32 64 1366 768).2.2.2.2.2.2.2.2.2.2.2.1⟩

/-- Claim C5 counterexample for the field-of-view clause: at a concrete call,
the only perspective projections `LoadEnvironment` pushes are the 90-degree
capture projection and the fixed 60-degree restore projection — in
particular no 45-degree projection, although 45 is a field of view the
demo's caller uses for its camera (pbr_demo.c sets `camera.fovy = 45.0f`),
so the restored projection is not derived from the caller's field of view. -/
theorem claimC5_counterexample :
    projectionPushes (LoadEnvironment "sky.hdr" 64 8 32 64 1366 768) =
      [(2, 90), (3, 90), (4, 90), (2, 60), (6, 60), (3, 60), (4, 60)]
    ∧ ∀ x ∈ projectionPushes (LoadEnvironment "sky.hdr" 64 8 32 64 1366 768),
        x.2 ≠ 45 := by
  exact ⟨rfl, by decide⟩

end RPBR
